import Mathlib

/-!
Shallow embedding of the ETL / classification / aggregation logic of the
drug-policy dashboard (`app.py`).  Tables are lists of row structures, cell
values are a small inductive (`Cell`) covering numeric, textual and missing
values, and each pipeline stage of the script is translated into an
executable Lean function.  Theorems about the claims follow the definitions.
-/

set_option autoImplicit false

namespace DrugPolicy

/-! ## String helpers (Python `str` operations used by the script) -/

/-- Python's single-character `str.replace(a, b)` acts characterwise. -/
def replaceChar (a b : Char) (l : List Char) : List Char :=
  l.map fun c => if c = a then b else c

/-- Python's `str.replace(a, "")` with a single-character pattern deletes
every occurrence of the character. -/
def removeChar (a : Char) (l : List Char) : List Char :=
  l.filter fun c => c ≠ a

/-- Python's `str.strip()`: drop whitespace from both ends. -/
def stripWs (l : List Char) : List Char :=
  ((l.dropWhile Char.isWhitespace).reverse.dropWhile Char.isWhitespace).reverse

/-- Python's `str.lower()` (ASCII view, which covers every constant that the
script compares against). -/
def lowerChars (l : List Char) : List Char :=
  l.map Char.toLower

/-- `isPrefOf k s` : the list `k` is a prefix of `s`. -/
def isPrefOf : List Char → List Char → Bool
  | [], _ => true
  | _ :: _, [] => false
  | a :: as, b :: bs => a = b && isPrefOf as bs

/-- Python's substring test `k in s` on strings, as lists of characters. -/
def containsSub (k : List Char) : List Char → Bool
  | [] => k.isEmpty
  | c :: rest => isPrefOf k (c :: rest) || containsSub k rest

/-! ## Cell values

A spreadsheet cell after loading is a number, a string, or missing (`NaN`).
`pd.to_numeric(, errors="coerce")` maps every cell to a number or to
missing. -/

inductive Cell where
  | num (q : ℚ)
  | str (s : String)
  | empty
deriving DecidableEq, Repr

/-- `pd.isna` on a cell. -/
def Cell.isna : Cell → Bool
  | .empty => true
  | _ => false

/-- The cell holds a (coerced) number. -/
def Cell.isNum : Cell → Bool
  | .num _ => true
  | _ => false

/-- The numeric value of a cell, when it has one. -/
def Cell.qVal : Cell → Option ℚ
  | .num q => some q
  | _ => none

/-- Digits-only parse of a nonempty character list. -/
def parseNatDigits (l : List Char) : Option ℕ :=
  if l = [] then none
  else if l.all Char.isDigit then
    some (l.foldl (fun n c => n * 10 + (c.toNat - 48)) 0)
  else none

/-- Simplified model of the string parsing done by
`pd.to_numeric(errors="coerce")`: optional sign, decimal digits, optional
fractional part; anything else coerces to missing. -/
def parseQ (s : String) : Option ℚ :=
  let l := stripWs s.data
  let sign : Bool := match l with | '-' :: _ => true | _ => false
  let body := match l with | '-' :: rest => rest | _ => l
  let applySign : ℚ → ℚ := fun q => if sign then -q else q
  match body.splitOn '.' with
  | [ip] => (parseNatDigits ip).map fun n => applySign n
  | [ip, fp] =>
    match parseNatDigits ip, parseNatDigits fp with
    | some n, some f => some (applySign ((n : ℚ) + (f : ℚ) / (10 : ℚ) ^ fp.length))
    | _, _ => none
  | _ => none

/-- `pd.to_numeric(errors="coerce")` on one cell: numbers pass through,
parseable strings become numbers, everything else becomes missing. -/
def Cell.toNumeric : Cell → Cell
  | .num q => .num q
  | .str s => match parseQ s with | some q => .num q | none => .empty
  | .empty => .empty

/-! ## Classification (app.py lines 34-49) -/

def OECD_COUNTRIES : List String :=
  ["United States", "Canada", "Mexico",
   "Germany", "France", "United Kingdom", "Italy", "Spain",
   "Netherlands", "Belgium", "Luxembourg",
   "Switzerland", "Austria", "Sweden", "Norway", "Denmark",
   "Finland", "Ireland", "Portugal", "Greece",
   "Japan", "South Korea", "Australia", "New Zealand",
   "Israel", "Turkey", "Chile", "Colombia",
   "Poland", "Czech Republic", "Slovakia", "Hungary",
   "Estonia", "Latvia", "Lithuania", "Slovenia"]

def classify_country (country : String) : String :=
  if country ∈ OECD_COUNTRIES then "Desenvolvido" else "Em desenvolvimento"

/-- `classify_country` applied to a possibly-missing cell: a missing country
is not a member of the set, so it classifies as developing. -/
def classifyOpt : Option String → String
  | none => "Em desenvolvimento"
  | some c => classify_country c

/-! ## Drug tagging (app.py lines 55-70) -/

def DRUG_TAGS : List (String × List String) :=
  [("MDMA", ["mdma", "ecstasy"]),
   ("Cocaine", ["cocaine"]),
   ("Heroin", ["heroin"]),
   ("Cannabis", ["cannabis", "marijuana", "hashish"]),
   ("Amphetamine", ["amphetamine", "ats"])]

/-- Some keyword of `keys` occurs as a substring of the lowered name. -/
def hasKeyword (keys : List String) (lowered : List Char) : Bool :=
  keys.any fun k => containsSub k.data lowered

/-- `tag_drug`: `None` for a missing name, otherwise the first tag of
`DRUG_TAGS` (in insertion order) one of whose keywords is a substring of the
lower-cased name. -/
def tag_drug : Option String → Option String
  | none => none
  | some n =>
    let l := lowerChars n.data
    (DRUG_TAGS.find? fun p => hasKeyword p.2 l).map Prod.fst

/-! ## Header normalization (app.py lines 98, 125, 146)

Each table applies a different chain of `str.strip` / `str.replace` calls to
its column names. -/

def pricesNormalize (s : String) : String :=
  ⟨replaceChar '/' '_' (replaceChar ' ' '_' (stripWs s.data))⟩

def seizuresNormalize (s : String) : String :=
  ⟨replaceChar ' ' '_' (stripWs s.data)⟩

def crimesNormalize (s : String) : String :=
  ⟨removeChar ':' (replaceChar ' ' '_' (stripWs s.data))⟩

/-! ## Column detection (app.py lines 10-28) -/

def yearCandidates : List String :=
  ["Year", "Reference_year", "Reference_period"]

def countryCandidates : List String :=
  ["Country", "Country_Territory", "Country/Territory",
   "Country_or_territory", "Territory"]

/-- First column whose lower-case form equals the lower-case form of some
candidate (outer loop over columns, as in the source). -/
def detectColumn (candidates : List String) (cols : List String) : Option String :=
  cols.find? fun col => candidates.any fun c =>
    lowerChars col.data == lowerChars c.data

def detect_year_column (cols : List String) : Option String :=
  detectColumn yearCandidates cols

def detect_country_column (cols : List String) : Option String :=
  detectColumn countryCandidates cols

/-! ## Header phase of each ETL (app.py lines 98-158, column level)

Errors: the prices branch raises the explicit `st.error` + `st.stop`
diagnostic that lists the available columns; the other two tables perform no
such check, so a missing column surfaces later as a raw `KeyError` when the
column is first subscripted (`df["Year"] = ...`) or required by
`dropna(subset=...)`. -/

inductive EtlErr where
  | missingColumns (cols : List String)
  | keyError (key : String)
deriving DecidableEq, Repr

/-- The `KeyError` raised by subscripting / `dropna` on an absent column. -/
def requireCol (key : String) (cols : List String) : Except EtlErr (List String) :=
  if key ∈ cols then .ok cols else .error (.keyError key)

/-- The rename applied by `prices.rename` (dict with three distinct keys). -/
def pricesRenameCol (y c col : String) : String :=
  if col = y then "Year"
  else if col = c then "Country"
  else if col = "Typical_USD" then "Price_USD"
  else col

/-- The rename applied by `seizures.rename` / `crimes.rename`; when
detection returned `None` the corresponding dict key matches no column. -/
def renameCol (y c : Option String) (col : String) : String :=
  if some col = y then "Year"
  else if some col = c then "Country"
  else col

/-- Prices ETL, column level: normalize, detect, halt with the diagnostic
when either detection fails, otherwise rename. -/
def pricesHeaderPhase (raw : List String) : Except EtlErr (List String) :=
  let cols := raw.map pricesNormalize
  match detect_year_column cols, detect_country_column cols with
  | some y, some c => .ok (cols.map (pricesRenameCol y c))
  | some _, none => .error (.missingColumns cols)
  | none, _ => .error (.missingColumns cols)

/-- Seizures ETL, column level: normalize, detect, rename unconditionally,
then hit the columns in the order the script subscripts them. -/
def seizuresHeaderPhase (raw : List String) : Except EtlErr (List String) := do
  let cols := raw.map seizuresNormalize
  let y := detect_year_column cols
  let c := detect_country_column cols
  let cols := cols.map (renameCol y c)
  let cols ← requireCol "Year" cols
  let cols ← requireCol "Kilograms" cols
  let cols ← requireCol "DrugName" cols
  let cols ← requireCol "Region" cols
  let cols ← requireCol "Country" cols
  pure cols

/-- Crimes ETL, column level. -/
def crimesHeaderPhase (raw : List String) : Except EtlErr (List String) := do
  let cols := raw.map crimesNormalize
  let y := detect_year_column cols
  let c := detect_country_column cols
  let cols := cols.map (renameCol y c)
  let cols ← requireCol "Year" cols
  let cols ← requireCol "Country" cols
  pure cols

/-! ## Row phase of each ETL (app.py lines 114-158)

Text-typed fields (Country, Drug, DrugName, Region) are `Option String`
(`none` = missing); fields that undergo numeric coercion are `Cell`. -/

structure PriceRow where
  year : Cell
  country : Option String
  drug : Option String
  region : Option String
  typicalUSD : Cell
deriving DecidableEq, Repr

structure PriceRowN where
  year : Cell
  priceUSD : Cell
  country : Option String
  drug : Option String
  region : Option String
  drugTag : Option String
  economicStatus : String
deriving DecidableEq, Repr

/-- Prices row phase: coerce Year and Price_USD, drop rows with a missing
value in Year, Price_USD, Drug or Region, then derive Drug_Tag and
Economic_Status. -/
def pricesRowsClean (rs : List PriceRow) : List PriceRowN :=
  (((rs.map fun r =>
      { r with year := r.year.toNumeric, typicalUSD := r.typicalUSD.toNumeric }).filter
    fun r => !r.year.isna && !r.typicalUSD.isna && r.drug.isSome && r.region.isSome).map
    fun r =>
      { year := r.year
        priceUSD := r.typicalUSD
        country := r.country
        drug := r.drug
        region := r.region
        drugTag := tag_drug r.drug
        economicStatus := classifyOpt r.country })

structure SeizRow where
  year : Cell
  country : Option String
  drugName : Option String
  region : Option String
  kilograms : Cell
deriving DecidableEq, Repr

structure SeizRowN where
  year : Cell
  kilograms : Cell
  country : Option String
  drugName : Option String
  region : Option String
  drugTag : Option String
  economicStatus : String
deriving DecidableEq, Repr

/-- Seizures row phase: coerce Year and Kilograms, drop rows missing Year,
Kilograms, DrugName, Region or Country, then derive the two tags. -/
def seizuresRowsClean (rs : List SeizRow) : List SeizRowN :=
  (((rs.map fun r =>
      { r with year := r.year.toNumeric, kilograms := r.kilograms.toNumeric }).filter
    fun r => !r.year.isna && !r.kilograms.isna && r.drugName.isSome &&
      r.region.isSome && r.country.isSome).map
    fun r =>
      { year := r.year
        kilograms := r.kilograms
        country := r.country
        drugName := r.drugName
        region := r.region
        drugTag := tag_drug r.drugName
        economicStatus := classifyOpt r.country })

structure CrimeRow where
  year : Cell
  country : Option String
  calculatedTotal : Cell
deriving DecidableEq, Repr

structure CrimeRowN where
  year : Cell
  country : Option String
  calculatedTotal : Cell
  economicStatus : String
deriving DecidableEq, Repr

/-- Crimes row phase: coerce Year only, drop rows missing Year or Country,
then derive Economic_Status.  `Calculated_total` is left untouched. -/
def crimesRowsClean (rs : List CrimeRow) : List CrimeRowN :=
  (((rs.map fun r => { r with year := r.year.toNumeric }).filter
    fun r => !r.year.isna && r.country.isSome).map
    fun r =>
      { year := r.year
        country := r.country
        calculatedTotal := r.calculatedTotal
        economicStatus := classifyOpt r.country })

/-! ## Sidebar options and filtered view (app.py lines 167-196) -/

/-- The drug-tag multiselect options: distinct non-null tags of the cleaned
price table (`prices["Drug_Tag"].dropna().unique()`). -/
def drugTagOptions (prices : List PriceRowN) : List String :=
  (prices.filterMap fun r => r.drugTag).dedup

/-- `Series.isin(sel)` for a possibly-missing string against a list of
selected strings: a missing value is never in the selection. -/
def memOpt (o : Option String) (sel : List String) : Bool :=
  match o with
  | some s => sel.contains s
  | none => false

/-- The filtered price view `df_price`: keep rows whose Drug_Tag and
Economic_Status are selected; restrict to the selected countries only when
that selection is nonempty. -/
def df_price (prices : List PriceRowN)
    (drugSel econSel countrySel : List String) : List PriceRowN :=
  let base := prices.filter fun r =>
    memOpt r.drugTag drugSel && econSel.contains r.economicStatus
  if countrySel.isEmpty then base
  else base.filter fun r => memOpt r.country countrySel

/-! ## Traffic ranking (app.py lines 294-304) -/

/-- Group keys of `groupby("Country")`: the distinct non-missing countries,
in first-appearance order (pandas sorts them; no tracked property depends on
the order of the grouped rows). -/
def groupCountries {α : Type} (f : α → Option String) (rows : List α) : List String :=
  (rows.filterMap f).dedup

/-- Sum of the kilograms of the seizure rows of one country (pandas `sum`
skips missing values). -/
def seizSumFor (rows : List SeizRowN) (k : String) : ℚ :=
  ((rows.filter fun r => r.country == some k).filterMap fun r => r.kilograms.qVal).sum

/-- Sum of `Calculated_total` over the crime rows of one country; the column
was never coerced, and pandas `sum` skips non-numeric/missing entries. -/
def crimeSumFor (rows : List CrimeRowN) (k : String) : ℚ :=
  ((rows.filter fun r => r.country == some k).filterMap fun r => r.calculatedTotal.qVal).sum

/-- `seizures.groupby("Country")["Kilograms"].sum()` as an association list. -/
def seiz_country (rows : List SeizRowN) : List (String × ℚ) :=
  (groupCountries (fun r => r.country) rows).map fun k => (k, seizSumFor rows k)

/-- `crimes.groupby("Country")["Calculated_total"].sum()`. -/
def crime_country (rows : List CrimeRowN) : List (String × ℚ) :=
  (groupCountries (fun r => r.country) rows).map fun k => (k, crimeSumFor rows k)

/-- Inner join of the two grouped tables on Country. -/
def trafficJoin (s : List SeizRowN) (c : List CrimeRowN) : List (String × ℚ × ℚ) :=
  (seiz_country s).filterMap fun p =>
    match (crime_country c).lookup p.1 with
    | some v => some (p.1, p.2, v)
    | none => none

/-- Maximum of a list of rationals (`Series.max`); only used on the joined
table, and the empty case never feeds a tracked property. -/
def maxQ : List ℚ → ℚ
  | [] => 0
  | x :: t => t.foldl max x

structure TrafficRow where
  country : String
  kilograms : ℚ
  calculatedTotal : ℚ
  trafficScore : ℚ
deriving DecidableEq, Repr

/-- `traffic_rank` with its `Traffic_Score` column: each component divided
by the column maximum of the joined table. -/
def traffic_rank (s : List SeizRowN) (c : List CrimeRowN) : List TrafficRow :=
  let joined := trafficJoin s c
  let maxKg := maxQ (joined.map fun p => p.2.1)
  let maxCt := maxQ (joined.map fun p => p.2.2)
  joined.map fun p =>
    { country := p.1
      kilograms := p.2.1
      calculatedTotal := p.2.2
      trafficScore := p.2.1 / maxKg + p.2.2 / maxCt }

/-- Stable insertion of one element into a list sorted descending by key
(`sort_values(ascending=False)`). -/
def insertDescBy {α : Type} (key : α → ℚ) (x : α) : List α → List α
  | [] => [x]
  | y :: ys => if key y < key x then x :: y :: ys else y :: insertDescBy key x ys

/-- Insertion sort, descending by key. -/
def sortDescBy {α : Type} (key : α → ℚ) : List α → List α
  | [] => []
  | x :: xs => insertDescBy key x (sortDescBy key xs)

/-- `top_traffic`: the 15 highest-scoring joined countries. -/
def top_traffic (s : List SeizRowN) (c : List CrimeRowN) : List TrafficRow :=
  (sortDescBy (fun r => r.trafficScore) (traffic_rank s c)).take 15

/-! ## Revenue simulation (app.py lines 337-370) -/

/-- The numeric value of a cleaned price cell (always a number after the
row phase). -/
def priceQ (r : PriceRowN) : ℚ :=
  match r.priceUSD with
  | .num q => q
  | _ => 0

structure SimRow where
  country : String
  avgPrice : ℚ
  transactions : ℕ
  estimatedVolume : ℚ
  legalPrice : ℚ
  taxRevenue : ℚ
deriving DecidableEq, Repr

/-- The simulation row of one country of the filtered base:
mean price and row count (`agg`), `Estimated_Volume = Transactions * 800`,
`Legal_Price = Avg_Price * (1 - price_reduction / 100)`,
`Tax_Revenue = Legal_Price * (tax_rate / 100) * Estimated_Volume`. -/
def sim_for (base : List PriceRowN) (taxRate priceReduction : ℚ) (k : String) : SimRow :=
  let ps := (base.filter fun r => r.country == some k).map priceQ
  let avg := ps.sum / (ps.length : ℚ)
  let ev : ℚ := (ps.length : ℚ) * 800
  let lp := avg * (1 - priceReduction / 100)
  { country := k
    avgPrice := avg
    transactions := ps.length
    estimatedVolume := ev
    legalPrice := lp
    taxRevenue := lp * (taxRate / 100) * ev }

/-- `country_sim`: one row per country of the base, ranked descending by
tax revenue and truncated to the top-N. -/
def country_sim (base : List PriceRowN) (taxRate priceReduction : ℚ)
    (topN : ℕ) : List SimRow :=
  (sortDescBy (fun r => r.taxRevenue)
    ((groupCountries (fun r => r.country) base).map
      (sim_for base taxRate priceReduction))).take topN

/-! ## One render cycle (filters in, chart data out) -/

structure FilterState where
  drugSel : List String
  econSel : List String
  countrySel : List String
deriving DecidableEq, Repr

structure DashboardOutputs where
  dfPrice : List PriceRowN
  trafficRank : List TrafficRow
  topTraffic : List TrafficRow
  mapData : List TrafficRow
  countrySim : List SimRow
deriving DecidableEq, Repr

/-- The data behind one render cycle: the filtered price view and the
simulation depend on the sidebar selections; the ranking table, the top-15
bar data and the choropleth data are built from the full (unfiltered)
seizures and crimes tables. -/
def dashboard (prices : List PriceRowN) (seiz : List SeizRowN)
    (crimesT : List CrimeRowN) (f : FilterState)
    (taxRate priceReduction : ℚ) (topN : ℕ) : DashboardOutputs :=
  let dfp := df_price prices f.drugSel f.econSel f.countrySel
  let tr := traffic_rank seiz crimesT
  { dfPrice := dfp
    trafficRank := tr
    topTraffic := (sortDescBy (fun r => r.trafficScore) tr).take 15
    mapData := tr
    countrySim := country_sim dfp taxRate priceReduction topN }

/-! ## Spec-side restatement used for the tagging refinement -/

/-- The tagging function exactly as the specification words it: lower-case
the input, then test the keyword lists in the fixed enumeration order MDMA,
Cocaine, Heroin, Cannabis, Amphetamine, returning the first tag with a
keyword occurring as a substring, and `none` when no keyword matches. -/
def tagClaimed (n : String) : Option String :=
  let l := lowerChars n.data
  if hasKeyword ["mdma", "ecstasy"] l then some "MDMA"
  else if hasKeyword ["cocaine"] l then some "Cocaine"
  else if hasKeyword ["heroin"] l then some "Heroin"
  else if hasKeyword ["cannabis", "marijuana", "hashish"] l then some "Cannabis"
  else if hasKeyword ["amphetamine", "ats"] l then some "Amphetamine"
  else none

/-! ## Concrete tables used to evaluate the theorems -/

def rawPriceRowX : PriceRow :=
  { year := .num 2020
    country := some "X"
    drug := some "Cocaine"
    region := some "Europe"
    typicalUSD := .num 100 }

def priceRowX : PriceRowN :=
  { year := .num 2020
    priceUSD := .num 100
    country := some "X"
    drug := some "Cocaine"
    region := some "Europe"
    drugTag := some "Cocaine"
    economicStatus := "Em desenvolvimento" }

/-- Ten identical cleaned price rows: one country with `Avg_Price = 100`
and `Transactions = 10`. -/
def simBase100 : List PriceRowN :=
  [priceRowX, priceRowX, priceRowX, priceRowX, priceRowX,
   priceRowX, priceRowX, priceRowX, priceRowX, priceRowX]

/-- The simulation row predicted by the spec's worked example. -/
def simRowX : SimRow :=
  { country := "X"
    avgPrice := 100
    transactions := 10
    estimatedVolume := 8000
    legalPrice := 70
    taxRevenue := 112000 }

/-- A crimes row whose `Calculated_total` cell is not a number. -/
def badCrimeRow : CrimeRow :=
  { year := .num 2020
    country := some "Brazil"
    calculatedTotal := .str "abc" }

/-- A cleaned price table produced by the ETL from a raw row with a negative
price (nothing in the pipeline excludes it). -/
def negBase : List PriceRowN :=
  pricesRowsClean
    [{ year := .num 2020
       country := some "X"
       drug := some "Cocaine"
       region := some "Europe"
       typicalUSD := .num (-1) }]

def wSeiz : List SeizRowN :=
  [{ year := .num 2020
     kilograms := .num 5
     country := some "X"
     drugName := some "Cocaine"
     region := some "Europe"
     drugTag := some "Cocaine"
     economicStatus := "Em desenvolvimento" }]

def wCrime : List CrimeRowN :=
  [{ year := .num 2020
     country := some "X"
     calculatedTotal := .num 7
     economicStatus := "Em desenvolvimento" }]

def trafficRowX : TrafficRow :=
  { country := "X"
    kilograms := 5
    calculatedTotal := 7
    trafficScore := 2 }

/-! ## Helper lemmas -/

theorem isNum_of_toNumeric_not_isna (c : Cell) (h : c.toNumeric.isna = false) :
    c.toNumeric.isNum = true := by
  cases c with
  | num q => rfl
  | str s =>
    simp only [Cell.toNumeric] at h ⊢
    cases hp : parseQ s with
    | none => rw [hp] at h; simp [Cell.isna] at h
    | some q => rfl
  | empty => simp [Cell.toNumeric, Cell.isna] at h

theorem lookup_mem {β : Type} (l : List (String × β)) (k : String) (v : β)
    (h : l.lookup k = some v) : (k, v) ∈ l := by
  induction l with
  | nil => simp [List.lookup] at h
  | cons p t ih =>
    obtain ⟨a, b⟩ := p
    rw [List.lookup_cons] at h
    cases hk : (k == a) with
    | true =>
      rw [hk] at h
      obtain rfl : b = v := by simpa using h
      obtain rfl : k = a := by simpa using hk
      exact List.mem_cons_self _ _
    | false =>
      rw [hk] at h
      exact List.mem_cons_of_mem _ (ih h)

theorem lookup_map_of_mem {β : Type} (f : String → β) (ks : List String) (k : String)
    (h : k ∈ ks) : (ks.map fun x => (x, f x)).lookup k = some (f k) := by
  induction ks with
  | nil => simp at h
  | cons a t ih =>
    rw [List.map_cons, List.lookup_cons]
    cases hk : (k == a) with
    | true =>
      obtain rfl : k = a := by simpa using hk
      rfl
    | false =>
      have hne : k ≠ a := by simpa using hk
      rcases List.mem_cons.mp h with h1 | h1
      · exact absurd h1 hne
      · exact ih h1

theorem mem_insertDescBy {α : Type} (key : α → ℚ) (x a : α) (l : List α) :
    a ∈ insertDescBy key x l ↔ a = x ∨ a ∈ l := by
  induction l with
  | nil => simp [insertDescBy]
  | cons y ys ih =>
    simp only [insertDescBy]
    split
    · simp
    · simp only [List.mem_cons, ih]
      tauto

theorem mem_sortDescBy {α : Type} (key : α → ℚ) (a : α) (l : List α) :
    a ∈ sortDescBy key l ↔ a ∈ l := by
  induction l with
  | nil => simp [sortDescBy]
  | cons y ys ih =>
    simp only [sortDescBy, mem_insertDescBy, List.mem_cons, ih]

theorem replaceChar_replaceChar (l : List Char) :
    replaceChar '/' '_' (replaceChar ' ' '_' l)
      = l.map fun c => if c = ' ' ∨ c = '/' then '_' else c := by
  induction l with
  | nil => rfl
  | cons a t ih =>
    simp only [replaceChar, List.map_cons] at ih ⊢
    refine congrArg₂ List.cons ?_ ih
    by_cases ha : a = ' '
    · simp [ha]
    · by_cases hb : a = '/' <;> simp [ha, hb]

/-! ## Claim theorems -/

/-- C3: `tag_drug` is a deterministic total function: `none` input maps to
`none`; otherwise the name is lower-cased and the first tag in the fixed
order MDMA, Cocaine, Heroin, Cannabis, Amphetamine with a keyword occurring
as a substring is returned, `none` when no keyword matches; tagging the same
input twice yields the same tag. -/
theorem C3_tag_drug_first_match_total :
    tag_drug none = none
    ∧ (∀ s : String, tag_drug (some s) = tagClaimed s)
    ∧ (∀ x : Option String, tag_drug x = tag_drug x) := by
  refine ⟨rfl, fun s => ?_, fun _ => rfl⟩
  simp only [tag_drug, tagClaimed, DRUG_TAGS]
  cases h1 : hasKeyword ["mdma", "ecstasy"] (lowerChars s.data) <;>
    cases h2 : hasKeyword ["cocaine"] (lowerChars s.data) <;>
      cases h3 : hasKeyword ["heroin"] (lowerChars s.data) <;>
        cases h4 : hasKeyword ["cannabis", "marijuana", "hashish"] (lowerChars s.data) <;>
          cases h5 : hasKeyword ["amphetamine", "ats"] (lowerChars s.data) <;>
            simp [List.find?, h1, h2, h3, h4, h5]

/-- C4: `classify_country` is exact string membership in the static list of
36 countries: members map to "Desenvolvido" (Developed) and every other
string maps to "Em desenvolvimento" (Developing). -/
theorem C4_classify_country_exact_membership :
    OECD_COUNTRIES.length = 36 ∧ OECD_COUNTRIES.Nodup
    ∧ ∀ c : String,
        (c ∈ OECD_COUNTRIES → classify_country c = "Desenvolvido")
        ∧ (c ∉ OECD_COUNTRIES → classify_country c = "Em desenvolvimento") := by
  refine ⟨rfl, by decide, fun c => ⟨fun h => ?_, fun h => ?_⟩⟩ <;>
    simp [classify_country, h]

/-- C4 witness: a member and a non-member of the static set, classified
through the theorem. -/
theorem C4_classify_country_exact_membership_witness :
    classify_country "Japan" = "Desenvolvido"
    ∧ classify_country "Brazil" = "Em desenvolvimento" :=
  ⟨(C4_classify_country_exact_membership.2.2 "Japan").1 (by decide),
   (C4_classify_country_exact_membership.2.2 "Brazil").2 (by decide)⟩

/-- C5 counterexample: the prices normalizer leaves a colon unchanged, the
seizures normalizer leaves a slash unchanged, and the crimes normalizer
deletes a colon instead of replacing it with an underscore — so not every
table replaces each space, slash and colon with an underscore. -/
theorem C5_counterexample :
    pricesNormalize "a:b" = "a:b"
    ∧ seizuresNormalize "a/b" = "a/b"
    ∧ crimesNormalize "a:b" = "ab"
    ∧ ("a:b" : String) ≠ "a_b"
    ∧ ("a/b" : String) ≠ "a_b"
    ∧ ("ab" : String) ≠ "a_b" :=
  ⟨rfl, rfl, rfl, by decide, by decide, by decide⟩

/-- C5 (amended): every header is stripped of surrounding whitespace first;
then the prices normalizer replaces spaces and slashes with underscores, the
seizures normalizer replaces only spaces, and the crimes normalizer replaces
spaces with underscores and removes colons. -/
theorem C5_amended_per_table_normalization :
    ∀ s : String,
      (pricesNormalize s).data
        = (stripWs s.data).map (fun c => if c = ' ' ∨ c = '/' then '_' else c)
      ∧ (seizuresNormalize s).data
        = (stripWs s.data).map (fun c => if c = ' ' then '_' else c)
      ∧ (crimesNormalize s).data
        = ((stripWs s.data).map (fun c => if c = ' ' then '_' else c)).filter
            (fun c => c ≠ ':') := by
  intro s
  refine ⟨?_, rfl, rfl⟩
  simpa using replaceChar_replaceChar (stripWs s.data)

/-- C10: the traffic ranking table, the top-15 bar data and the choropleth
data are computed from the full seizures and crimes tables; two render
cycles that differ only in the sidebar filter selections produce identical
ranking outputs. -/
theorem C10_ranking_independent_of_filters :
    ∀ (p : List PriceRowN) (s : List SeizRowN) (c : List CrimeRowN)
      (f1 f2 : FilterState) (tax pr : ℚ) (n : ℕ),
      (dashboard p s c f1 tax pr n).trafficRank = (dashboard p s c f2 tax pr n).trafficRank
      ∧ (dashboard p s c f1 tax pr n).topTraffic = (dashboard p s c f2 tax pr n).topTraffic
      ∧ (dashboard p s c f1 tax pr n).mapData = (dashboard p s c f2 tax pr n).mapData :=
  fun _ _ _ _ _ _ _ _ => ⟨rfl, rfl, rfl⟩

/-- C2 counterexample: a crimes row whose `Calculated_total` is not numeric
survives the crimes ETL unchanged, because that column is never coerced and
never checked. -/
theorem C2_counterexample :
    crimesRowsClean [badCrimeRow]
      = [{ year := .num 2020
           country := some "Brazil"
           calculatedTotal := .str "abc"
           economicStatus := "Em desenvolvimento" }]
    ∧ (Cell.str "abc").isNum = false := by
  decide

/-- C2 (amended): in the cleaned prices table Year and Price_USD are
numbers, in the cleaned seizures table Year and Kilograms are numbers, and
rows failing those coercions are dropped; for crimes only Year carries this
guarantee — `Calculated_total` is neither coerced nor checked. -/
theorem C2_amended_numeric_invariant :
    (∀ (rs : List PriceRow), ∀ r ∈ pricesRowsClean rs,
      r.year.isNum = true ∧ r.priceUSD.isNum = true)
    ∧ (∀ (rs : List SeizRow), ∀ r ∈ seizuresRowsClean rs,
      r.year.isNum = true ∧ r.kilograms.isNum = true)
    ∧ (∀ (rs : List CrimeRow), ∀ r ∈ crimesRowsClean rs,
      r.year.isNum = true) := by
  refine ⟨fun rs r hr => ?_, fun rs r hr => ?_, fun rs r hr => ?_⟩
  · obtain ⟨r1, hr1, rfl⟩ := List.mem_map.mp hr
    obtain ⟨hr1m, hp⟩ := List.mem_filter.mp hr1
    obtain ⟨r0, _, rfl⟩ := List.mem_map.mp hr1m
    simp only [Bool.and_eq_true, Bool.not_eq_true'] at hp
    exact ⟨isNum_of_toNumeric_not_isna _ hp.1.1.1,
           isNum_of_toNumeric_not_isna _ hp.1.1.2⟩
  · obtain ⟨r1, hr1, rfl⟩ := List.mem_map.mp hr
    obtain ⟨hr1m, hp⟩ := List.mem_filter.mp hr1
    obtain ⟨r0, _, rfl⟩ := List.mem_map.mp hr1m
    simp only [Bool.and_eq_true, Bool.not_eq_true'] at hp
    exact ⟨isNum_of_toNumeric_not_isna _ hp.1.1.1.1,
           isNum_of_toNumeric_not_isna _ hp.1.1.1.2⟩
  · obtain ⟨r1, hr1, rfl⟩ := List.mem_map.mp hr
    obtain ⟨hr1m, hp⟩ := List.mem_filter.mp hr1
    obtain ⟨r0, _, rfl⟩ := List.mem_map.mp hr1m
    simp only [Bool.and_eq_true, Bool.not_eq_true'] at hp
    exact isNum_of_toNumeric_not_isna _ hp.1

/-- C2 witness: the amended invariant evaluated on a concrete raw price row
that survives the ETL. -/
theorem C2_amended_numeric_invariant_witness :
    priceRowX.year.isNum = true ∧ priceRowX.priceUSD.isNum = true :=
  C2_amended_numeric_invariant.1 [rawPriceRowX] priceRowX (by decide)

/-- C9: when the drug-tag selection is a subset of the multiselect options
(which are the distinct non-null tags), every row of the filtered price view
has a non-null Drug_Tag — rows whose free-text drug matched no keyword are
excluded no matter which filters are selected. -/
theorem C9_df_price_nonnull_drug_tag :
    ∀ (prices : List PriceRowN) (drugSel econSel countrySel : List String),
      drugSel ⊆ drugTagOptions prices →
      ∀ r ∈ df_price prices drugSel econSel countrySel, r.drugTag ≠ none := by
  intro prices ds es cs _ r hr
  have hbase : r ∈ prices.filter fun r =>
      memOpt r.drugTag ds && es.contains r.economicStatus := by
    simp only [df_price] at hr
    split at hr
    · exact hr
    · exact List.mem_of_mem_filter hr
  have hp := (List.mem_filter.mp hbase).2
  simp only [Bool.and_eq_true] at hp
  cases ht : r.drugTag with
  | none => rw [ht] at hp; simp [memOpt] at hp
  | some t => simp [ht]

/-- C9 witness: a concrete price table, selection and row, run through the
theorem. -/
theorem C9_df_price_nonnull_drug_tag_witness : priceRowX.drugTag ≠ none :=
  C9_df_price_nonnull_drug_tag [priceRowX] ["Cocaine"] ["Em desenvolvimento"] []
    (by decide) priceRowX (by decide)

/-- C6: every row of the revenue simulation satisfies
`Estimated_Volume = Transactions * 800`,
`Legal_Price = Avg_Price * (1 - price_reduction / 100)` and
`Tax_Revenue = Legal_Price * (tax_rate / 100) * Estimated_Volume`; on a base
with `Avg_Price = 100` and `Transactions = 10`, tax rate 20 and price
reduction 30 it yields volume 8000, legal price 70 and revenue 112000. -/
theorem C6_country_sim_formulas :
    (∀ (base : List PriceRowN) (tax pr : ℚ) (k : String),
      k ∈ groupCountries (fun r => r.country) base →
        (sim_for base tax pr k).estimatedVolume
            = ((sim_for base tax pr k).transactions : ℚ) * 800
        ∧ (sim_for base tax pr k).legalPrice
            = (sim_for base tax pr k).avgPrice * (1 - pr / 100)
        ∧ (sim_for base tax pr k).taxRevenue
            = (sim_for base tax pr k).legalPrice * (tax / 100)
              * (sim_for base tax pr k).estimatedVolume)
    ∧ (∀ (base : List PriceRowN) (tax pr : ℚ) (n : ℕ) (row : SimRow),
      row ∈ country_sim base tax pr n →
        ∃ k ∈ groupCountries (fun r => r.country) base, row = sim_for base tax pr k)
    ∧ country_sim simBase100 20 30 15 = [simRowX] := by
  refine ⟨fun base tax pr k _ => ⟨rfl, rfl, rfl⟩,
          fun base tax pr n row hrow => ?_, ?_⟩
  · have hsort := List.take_subset n _ hrow
    have hmap := (mem_sortDescBy (fun r => r.taxRevenue) row _).mp hsort
    obtain ⟨k, hk, rfl⟩ := List.mem_map.mp hmap
    exact ⟨k, hk, rfl⟩
  · norm_num [country_sim, groupCountries, sim_for, simBase100, priceRowX, simRowX,
      priceQ, sortDescBy, insertDescBy, List.dedup]

/-- C6 witness: the formulas instantiated at the spec's worked example
(`Avg_Price = 100`, `Transactions = 10`, tax rate 20, price reduction 30). -/
theorem C6_country_sim_formulas_witness :
    (sim_for simBase100 20 30 "X").estimatedVolume
        = ((sim_for simBase100 20 30 "X").transactions : ℚ) * 800
    ∧ (sim_for simBase100 20 30 "X").legalPrice
        = (sim_for simBase100 20 30 "X").avgPrice * (1 - (30 : ℚ) / 100)
    ∧ (sim_for simBase100 20 30 "X").taxRevenue
        = (sim_for simBase100 20 30 "X").legalPrice * ((20 : ℚ) / 100)
          * (sim_for simBase100 20 30 "X").estimatedVolume :=
  C6_country_sim_formulas.1 simBase100 20 30 "X" (by decide)

/-- C8: the traffic ranking is the inner join on Country of the summed
seizure kilograms and the summed crime totals, and every joined country's
score is its kilogram sum divided by the maximum kilogram sum plus its crime
sum divided by the maximum crime sum (each component normalized only by its
maximum). -/
theorem C8_traffic_score_structure :
    ∀ (s : List SeizRowN) (c : List CrimeRowN),
      (∀ row ∈ traffic_rank s c,
        row.kilograms = seizSumFor s row.country
        ∧ row.calculatedTotal = crimeSumFor c row.country
        ∧ row.trafficScore
            = row.kilograms / maxQ ((trafficJoin s c).map fun p => p.2.1)
              + row.calculatedTotal / maxQ ((trafficJoin s c).map fun p => p.2.2)
        ∧ row.country ∈ groupCountries (fun r => r.country) s
        ∧ row.country ∈ groupCountries (fun r => r.country) c)
      ∧ (∀ k : String, k ∈ groupCountries (fun r => r.country) s →
          k ∈ groupCountries (fun r => r.country) c →
          ({ country := k
             kilograms := seizSumFor s k
             calculatedTotal := crimeSumFor c k
             trafficScore :=
               seizSumFor s k / maxQ ((trafficJoin s c).map fun p => p.2.1)
                 + crimeSumFor c k / maxQ ((trafficJoin s c).map fun p => p.2.2) } : TrafficRow)
            ∈ traffic_rank s c) := by
  intro s c
  constructor
  · intro row hrow
    simp only [traffic_rank] at hrow
    obtain ⟨p, hp, rfl⟩ := List.mem_map.mp hrow
    obtain ⟨⟨a1, a2⟩, ha, hmatch⟩ := List.mem_filterMap.mp hp
    simp only [] at hmatch
    cases hl : (crime_country c).lookup a1 with
    | none => rw [hl] at hmatch; simp at hmatch
    | some v =>
      rw [hl] at hmatch
      obtain rfl : p = (a1, a2, v) := by simpa using hmatch.symm
      obtain ⟨k, hk, hake⟩ := List.mem_map.mp ha
      injection hake with h1 h2
      subst h1
      subst h2
      have hcm := lookup_mem _ _ _ hl
      obtain ⟨k2, hk2, hk2e⟩ := List.mem_map.mp hcm
      injection hk2e with h3 h4
      subst h3
      subst h4
      exact ⟨rfl, rfl, rfl, hk, hk2⟩
  · intro k hks hkc
    have hlk : (crime_country c).lookup k = some (crimeSumFor c k) :=
      lookup_map_of_mem _ _ _ hkc
    have hjoin : (k, seizSumFor s k, crimeSumFor c k) ∈ trafficJoin s c := by
      refine List.mem_filterMap.mpr ⟨(k, seizSumFor s k), ?_, ?_⟩
      · exact List.mem_map.mpr ⟨k, hks, rfl⟩
      · simp [hlk]
    exact List.mem_map.mpr ⟨(k, seizSumFor s k, crimeSumFor c k), hjoin, rfl⟩

/-- C8 witness: a one-country pair of tables, joined and scored through the
theorem. -/
theorem C8_traffic_score_structure_witness :
    ({ country := "X"
       kilograms := seizSumFor wSeiz "X"
       calculatedTotal := crimeSumFor wCrime "X"
       trafficScore :=
         seizSumFor wSeiz "X" / maxQ ((trafficJoin wSeiz wCrime).map fun p => p.2.1)
           + crimeSumFor wCrime "X" / maxQ ((trafficJoin wSeiz wCrime).map fun p => p.2.2) }
      : TrafficRow)
      ∈ traffic_rank wSeiz wCrime :=
  (C8_traffic_score_structure wSeiz wCrime).2 "X" (by decide) (by decide)

/-- C7 counterexample: the ETL does not exclude negative prices, and for a
country whose average price is negative the simulated tax revenue strictly
decreases as the tax rate grows from 5 to 50 (and is not zero), so the
claimed monotonicity fails on the code as written. -/
theorem C7_counterexample :
    "X" ∈ groupCountries (fun r => r.country) negBase
    ∧ ¬ ((sim_for negBase 5 30 "X").taxRevenue < (sim_for negBase 50 30 "X").taxRevenue
         ∨ (sim_for negBase 5 30 "X").taxRevenue = 0) := by
  constructor
  · decide
  · norm_num [sim_for, negBase, pricesRowsClean, priceQ, Cell.toNumeric, Cell.isna,
      tag_drug, classifyOpt, classify_country]

/-- C7 (amended): for every country of the simulation base, when every
retained price is nonnegative and the price reduction lies in its slider
range, raising the tax rate strictly raises that country's simulated tax
revenue — except that the revenue is identically zero (at both rates) when
the average price is zero. -/
theorem C7_tax_revenue_monotone_in_tax_rate :
    ∀ (base : List PriceRowN) (pr t1 t2 : ℚ) (k : String),
      (∀ r ∈ base, 0 ≤ priceQ r) → 0 ≤ pr → pr ≤ 60 → t1 < t2 →
      k ∈ groupCountries (fun r => r.country) base →
      (sim_for base t1 pr k).taxRevenue < (sim_for base t2 pr k).taxRevenue
      ∨ ((sim_for base t1 pr k).taxRevenue = 0
         ∧ (sim_for base t2 pr k).taxRevenue = 0) := by
  intro base pr t1 t2 k hnn hpr0 hpr60 ht hk
  obtain ⟨r0, hr0, hr0k⟩ : ∃ r ∈ base, r.country = some k := by
    simpa [groupCountries, List.mem_dedup, List.mem_filterMap] using hk
  have hr0f : r0 ∈ base.filter fun r => r.country == some k :=
    List.mem_filter.mpr ⟨hr0, by simp [hr0k]⟩
  set ps := (base.filter fun r => r.country == some k).map priceQ with hps
  have hlen : 0 < ps.length :=
    List.length_pos.mpr (List.ne_nil_of_mem (List.mem_map_of_mem priceQ hr0f))
  have hsum : 0 ≤ ps.sum := by
    apply List.sum_nonneg
    intro x hx
    obtain ⟨r, hr, rfl⟩ := List.mem_map.mp hx
    exact hnn r (List.mem_of_mem_filter hr)
  have hlenQ : (0 : ℚ) < (ps.length : ℚ) := by exact_mod_cast hlen
  have havg : 0 ≤ ps.sum / (ps.length : ℚ) := div_nonneg hsum (le_of_lt hlenQ)
  have hfac : (0 : ℚ) < 1 - pr / 100 := by linarith
  have hev : (0 : ℚ) < (ps.length : ℚ) * 800 := by positivity
  rcases eq_or_lt_of_le havg with heq | hlt
  · right
    constructor <;>
      · show ps.sum / (ps.length : ℚ) * (1 - pr / 100) * (_ / 100)
            * ((ps.length : ℚ) * 800) = 0
        rw [← heq]
        ring
  · left
    have hlp : 0 < ps.sum / (ps.length : ℚ) * (1 - pr / 100) := mul_pos hlt hfac
    have key : 0 < ps.sum / (ps.length : ℚ) * (1 - pr / 100)
        * ((ps.length : ℚ) * 800) * (t2 - t1) :=
      mul_pos (mul_pos hlp hev) (by linarith)
    show ps.sum / (ps.length : ℚ) * (1 - pr / 100) * (t1 / 100) * ((ps.length : ℚ) * 800)
        < ps.sum / (ps.length : ℚ) * (1 - pr / 100) * (t2 / 100) * ((ps.length : ℚ) * 800)
    nlinarith [key]

/-- C7 witness: one country with a single nonnegative price, tax rates 5
and 50 from the slider range, price reduction 30. -/
theorem C7_tax_revenue_monotone_in_tax_rate_witness :
    (sim_for [priceRowX] 5 30 "X").taxRevenue < (sim_for [priceRowX] 50 30 "X").taxRevenue
    ∨ ((sim_for [priceRowX] 5 30 "X").taxRevenue = 0
       ∧ (sim_for [priceRowX] 50 30 "X").taxRevenue = 0) :=
  C7_tax_revenue_monotone_in_tax_rate [priceRowX] 30 5 50 "X"
    (by decide) (by decide) (by decide) (by decide) (by decide)

/-- A rename with no detected Year column cannot produce a "Year" column. -/
theorem year_not_mem_rename (cols : List String)
    (h : detect_year_column cols = none) (c : Option String) :
    "Year" ∉ cols.map (renameCol none c) := by
  intro hmem
  obtain ⟨col, hcol, hre⟩ := List.mem_map.mp hmem
  have hfalse := List.find?_eq_none.mp h col hcol
  have hcc : col = "Year" := by
    unfold renameCol at hre
    split at hre
    · simp_all
    · split at hre
      · exact absurd hre (by decide)
      · exact hre
  subst hcc
  exact hfalse (by decide)

/-- C1 counterexample: a seizures table with no Year column is not stopped
with the column-listing diagnostic; the script renames what it can and then
dies with a KeyError, which is not the column-listing diagnostic. -/
theorem C1_counterexample :
    seizuresHeaderPhase ["Foo", "Kilograms", "DrugName", "Region", "Country"]
      = .error (.keyError "Year")
    ∧ EtlErr.keyError "Year"
        ≠ EtlErr.missingColumns ["Foo", "Kilograms", "DrugName", "Region", "Country"] :=
  ⟨rfl, by decide⟩

/-- C1 (amended): only the prices table is guarded — when Year or Country
detection fails there, the pipeline halts with the diagnostic carrying the
full normalized column list; for seizures and crimes no check exists, and a
table without a detectable Year column fails later with a KeyError. -/
theorem C1_missing_column_check_only_prices :
    (∀ raw : List String,
      detect_year_column (raw.map pricesNormalize) = none
        ∨ detect_country_column (raw.map pricesNormalize) = none →
      pricesHeaderPhase raw = .error (.missingColumns (raw.map pricesNormalize)))
    ∧ (∀ raw : List String,
      detect_year_column (raw.map seizuresNormalize) = none →
      seizuresHeaderPhase raw = .error (.keyError "Year"))
    ∧ (∀ raw : List String,
      detect_year_column (raw.map crimesNormalize) = none →
      crimesHeaderPhase raw = .error (.keyError "Year")) := by
  refine ⟨fun raw h => ?_, fun raw h => ?_, fun raw h => ?_⟩
  · rcases h with h | h
    · simp [pricesHeaderPhase, h]
    · rcases hy : detect_year_column (raw.map pricesNormalize) with _ | y <;>
        simp [pricesHeaderPhase, hy, h]
  · have hcond : ¬ ∃ a ∈ raw,
        renameCol none (detect_country_column (List.map seizuresNormalize raw))
          (seizuresNormalize a) = "Year" := by
      rintro ⟨a, ha, hae⟩
      exact year_not_mem_rename (List.map seizuresNormalize raw) h
        (detect_country_column (List.map seizuresNormalize raw))
        (List.mem_map.mpr ⟨seizuresNormalize a, List.mem_map_of_mem seizuresNormalize ha, hae⟩)
    simp [seizuresHeaderPhase, h, requireCol, hcond, Bind.bind, Except.bind]
  · have hcond : ¬ ∃ a ∈ raw,
        renameCol none (detect_country_column (List.map crimesNormalize raw))
          (crimesNormalize a) = "Year" := by
      rintro ⟨a, ha, hae⟩
      exact year_not_mem_rename (List.map crimesNormalize raw) h
        (detect_country_column (List.map crimesNormalize raw))
        (List.mem_map.mpr ⟨crimesNormalize a, List.mem_map_of_mem crimesNormalize ha, hae⟩)
    simp [crimesHeaderPhase, h, requireCol, hcond, Bind.bind, Except.bind]

/-- C1 witness: a one-column table exercising all three branches of the
amended statement. -/
theorem C1_missing_column_check_only_prices_witness :
    pricesHeaderPhase ["Foo"] = .error (.missingColumns ["Foo"])
    ∧ seizuresHeaderPhase ["Foo"] = .error (.keyError "Year")
    ∧ crimesHeaderPhase ["Foo"] = .error (.keyError "Year") :=
  ⟨C1_missing_column_check_only_prices.1 ["Foo"] (Or.inl (by decide)),
   C1_missing_column_check_only_prices.2.1 ["Foo"] (by decide),
   C1_missing_column_check_only_prices.2.2 ["Foo"] (by decide)⟩

end DrugPolicy
